import Mathlib

/-!
# Window-context engine of QWindowKit (`src/core/contexts/abstractwindowcontext.cpp`)

Shallow embedding of `QWK::AbstractWindowContext`.

* Pointers are `Option Nat`: `none` is `nullptr`, `some a` the address of a live object.
* Every member function becomes a function of the context state `Ctx`.  A function that
  dereferences a pointer returns `Option`: `none` means that the C++ code dereferenced a
  null pointer (or an end iterator) at that point, i.e. has no defined result.
* `Q_ASSERT` is compiled out (release build, `QT_NO_DEBUG`); the explicit guards that follow
  the assertions in the source are kept.
* The host toolkit is external.  Its answers at the time of a call (the virtual methods of the
  `WindowItemDelegate` object and the getters of `QWindow`) are the argument `d : Toolkit`.
* Calls that leave the class (`winIdChanged`, the dynamically dispatched `virtual_hook`,
  delegate setters, `QWindow::setPosition`) are recorded, in order, as a list of `Effect`.
* Coordinates are `Int`.  The arithmetic that the source does on 32-bit `int` (the
  `Centralize` hook, with `QRect::width()` and `QRect::height()`) wraps every result to the
  two's-complement range with `wrapInt32`.  The rectangle predicates of Qt (`contains`,
  `intersects`) are evaluated on the mathematical integers; the theorems about hit testing
  hold for whatever these predicates answer.
* `setSystemButtonArea` is compiled only under `Q_OS_MAC` and is not embedded.
-/

namespace QWK

/-! ## Qt value types used by the source -/

/-- Nullable `QObject *` (also `QPointer<QObject>`). -/
abbrev QObjectPtr := Option Nat

/-- Nullable `QWindow *` (also `QPointer<QWindow>`). -/
abbrev QWindowPtr := Option Nat

/-- Nullable `WindowItemDelegate *`. -/
abbrev DelegatePtr := Option Nat

/-- The range of the 32-bit `int`. -/
abbrev isInt32 (x : Int) : Prop := -2147483648 ≤ x ∧ x ≤ 2147483647

/-- The value that 32-bit `int` arithmetic yields for the exact result `x`: `x` reduced modulo
2^32 into the two's-complement range. -/
def wrapInt32 (x : Int) : Int := (x + 2147483648) % 4294967296 - 2147483648

/-- Qt `QPoint`. -/
structure QPoint where
  x : Int
  y : Int
deriving DecidableEq, Repr

/-- Qt `QSize`. -/
structure QSize where
  width : Int
  height : Int
deriving DecidableEq, Repr

/-- Qt `QRect`, stored as Qt stores it: the corners `(x1, y1)` and `(x2, y2)`, both inclusive. -/
structure QRect where
  x1 : Int
  y1 : Int
  x2 : Int
  y2 : Int
deriving DecidableEq, Repr

/-- Constructor `QRect(const QPoint &topLeft, const QSize &size)`. -/
def QRect.ofTopLeftSize (topLeft : QPoint) (size : QSize) : QRect :=
  { x1 := topLeft.x, y1 := topLeft.y,
    x2 := topLeft.x + size.width - 1, y2 := topLeft.y + size.height - 1 }

/-- Qt `QRect::width()`. -/
def QRect.width (r : QRect) : Int := wrapInt32 (wrapInt32 (r.x2 - r.x1) + 1)

/-- Qt `QRect::height()`. -/
def QRect.height (r : QRect) : Int := wrapInt32 (wrapInt32 (r.y2 - r.y1) + 1)

/-- Qt `QRect::topLeft()`. -/
def QRect.topLeft (r : QRect) : QPoint := { x := r.x1, y := r.y1 }

/-- Qt `QRect::isNull()`. -/
def QRect.isNull (r : QRect) : Bool := r.x2 == r.x1 - 1 && r.y2 == r.y1 - 1

/-- Qt `QRect::contains(const QPoint &, bool proper = false)`: the edges belong to the
rectangle; a rectangle with swapped corners is normalised first. -/
def QRect.contains (r : QRect) (p : QPoint) : Bool :=
  let l := if r.x2 < r.x1 - 1 then r.x2 else r.x1
  let rr := if r.x2 < r.x1 - 1 then r.x1 else r.x2
  if p.x < l || p.x > rr then false
  else
    let t := if r.y2 < r.y1 - 1 then r.y2 else r.y1
    let b := if r.y2 < r.y1 - 1 then r.y1 else r.y2
    if p.y < t || p.y > b then false else true

/-- Qt `QRect::intersects(const QRect &)`. -/
def QRect.intersects (a : QRect) (r : QRect) : Bool :=
  if a.isNull || r.isNull then false
  else
    let l1 := if a.x2 - a.x1 + 1 < 0 then a.x2 else a.x1
    let r1 := if a.x2 - a.x1 + 1 < 0 then a.x1 else a.x2
    let l2 := if r.x2 - r.x1 + 1 < 0 then r.x2 else r.x1
    let r2 := if r.x2 - r.x1 + 1 < 0 then r.x1 else r.x2
    if l1 > r2 || l2 > r1 then false
    else
      let t1 := if a.y2 - a.y1 + 1 < 0 then a.y2 else a.y1
      let b1 := if a.y2 - a.y1 + 1 < 0 then a.y1 else a.y2
      let t2 := if r.y2 - r.y1 + 1 < 0 then r.y2 else r.y1
      let b2 := if r.y2 - r.y1 + 1 < 0 then r.y1 else r.y2
      if t1 > b2 || t2 > b1 then false else true

/-- Qt `QVariant`, the loosely typed attribute value; only its equality is used. -/
inductive QVariant where
  | invalid
  | bool (b : Bool)
  | int (i : Int)
  | string (s : String)
deriving DecidableEq, Repr

/-! ## Declarations of the headers the source includes -/

/-- Enumerators of `WindowAgentBase::SystemButton` that the source names.  The enumeration is
declared in a header; the source uses `Unknown` as the sentinel and scans the slots
`WindowIcon .. Close`.  The enumerator values are parameters of the embedding. -/
structure SystemButton where
  Unknown : Nat
  WindowIcon : Nat
  Close : Nat
deriving DecidableEq, Repr

/-- Hook identifiers (`enum WindowContextHook`) that the source names, and any other `int`. -/
inductive WindowContextHook where
  | CentralizeHook
  | RaiseWindowHook
  | ShowSystemMenuHook
  | DefaultColorsHook
  | WindowAttributeChangedHook
  | SystemButtonAreaChangedHook
  | unrecognized (id : Int)
deriving DecidableEq, Repr

/-- Payload `void *data` of `virtual_hook`, by what the caller points it at. -/
inductive HookData where
  | null
  | point (pos : QPoint)
  | colorMap (map : List (String × Nat))
  | attributeArgs (key : String) (newVar : QVariant) (oldVar : QVariant)
deriving DecidableEq, Repr

/-! ## The context state and the toolkit -/

/-- Data members of `AbstractWindowContext`. -/
structure Ctx where
  m_host : QObjectPtr
  m_delegate : DelegatePtr
  m_windowHandle : QWindowPtr
  m_windowHandleCache : QWindowPtr
  m_internalEnabled : Bool
  m_titleBar : QObjectPtr
  m_systemButtons : Nat → QObjectPtr
  m_hitTestVisibleItems : List QObjectPtr
  m_windowAttributes : List (String × QVariant)

/-- Answers of the host toolkit at the time of a call. -/
structure Toolkit where
  /-- Method `WindowItemDelegate::isVisible(const QObject *)`. -/
  isVisible : QObjectPtr → Bool
  /-- Method `WindowItemDelegate::isEnabled(const QObject *)`. -/
  isEnabled : QObjectPtr → Bool
  /-- Method `WindowItemDelegate::mapGeometryToScene(const QObject *)`. -/
  mapGeometryToScene : QObjectPtr → QRect
  /-- Method `WindowItemDelegate::window(const QObject *)`. -/
  window : QObjectPtr → QWindowPtr
  /-- Method `WindowItemDelegate::getWindowState(const QObject *)`, the flags as bits. -/
  getWindowState : QObjectPtr → Nat
  /-- Getter `QWindow::size()` of the window at an address. -/
  size : Nat → QSize
  /-- Getter `QWindow::screen()->geometry()` of the window at an address. -/
  screenGeometry : Nat → QRect

/-- Calls that leave the class, in the order the source makes them. -/
inductive Effect where
  | winIdChanged (oldWindow : QWindowPtr) (isDestroyed : Bool)
  | virtual_hook (id : WindowContextHook) (data : HookData)
  | setPosition (window : Nat) (pos : QPoint)
  | setWindowState (host : QObjectPtr) (state : Nat)
  | bringWindowToTop (host : QObjectPtr)
deriving DecidableEq, Repr

/-! ## Member functions -/

/-- The `for` loop of `isInSystemButtons` from slot `i` on, with `n` iterations left. -/
def isInSystemButtonsLoop (B : SystemButton) (d : Toolkit) (s : Ctx) (pos : QPoint) :
    Nat → Nat → Option (Bool × Nat)
  | 0, _ => some (false, B.Unknown)
  | n + 1, i =>
    let currentButton := s.m_systemButtons i
    if currentButton.isNone then isInSystemButtonsLoop B d s pos n (i + 1)
    else
      match s.m_delegate with
      | none => none
      | some _ =>
        if !d.isVisible currentButton || !d.isEnabled currentButton then
          isInSystemButtonsLoop B d s pos n (i + 1)
        else if (d.mapGeometryToScene currentButton).contains pos then some (true, i)
        else isInSystemButtonsLoop B d s pos n (i + 1)

/-- `AbstractWindowContext::isInSystemButtons(pos, button)`: the returned pair is the
`bool` result and the final value of `*button`. -/
def isInSystemButtons (B : SystemButton) (d : Toolkit) (s : Ctx) (pos : QPoint) :
    Option (Bool × Nat) :=
  isInSystemButtonsLoop B d s pos (B.Close + 1 - B.WindowIcon) B.WindowIcon

/-- The first `for` loop of `isInTitleBarDraggableArea` (over the system buttons) from slot `i`
on, with `n` iterations left: `true` when the loop leaves the function with `return false`.
The delegate pointer has been dereferenced before the loop is reached. -/
def titleBarButtonLoop (d : Toolkit) (s : Ctx) (pos : QPoint) : Nat → Nat → Bool
  | 0, _ => false
  | n + 1, i =>
    let currentButton := s.m_systemButtons i
    if currentButton.isSome && d.isVisible currentButton && d.isEnabled currentButton &&
        (d.mapGeometryToScene currentButton).contains pos then true
    else titleBarButtonLoop d s pos n (i + 1)

/-- `AbstractWindowContext::isInTitleBarDraggableArea(pos)`.  The result is `none` when the
source dereferences a null `m_delegate` or a null `m_windowHandle`. -/
def isInTitleBarDraggableArea (B : SystemButton) (d : Toolkit) (s : Ctx) (pos : QPoint) :
    Option Bool :=
  if s.m_titleBar.isNone then some false
  else
    match s.m_delegate with
    | none => none
    | some _ =>
      if !d.isVisible s.m_titleBar || !d.isEnabled s.m_titleBar then some false
      else
        match s.m_windowHandle with
        | none => none
        | some w =>
          let windowRect := QRect.ofTopLeftSize { x := 0, y := 0 } (d.size w)
          let titleBarRect := d.mapGeometryToScene s.m_titleBar
          if !titleBarRect.intersects windowRect then some false
          else if !titleBarRect.contains pos then some false
          else if titleBarButtonLoop d s pos (B.Close + 1 - B.WindowIcon) B.WindowIcon then
            some false
          else if s.m_hitTestVisibleItems.any (fun widget =>
              widget.isSome && d.isVisible widget && d.isEnabled widget &&
                (d.mapGeometryToScene widget).contains pos) then
            some false
          else some true

/-- The order `operator<` of `QString`: lexicographic on the code units. -/
def qstringLt : List Char → List Char → Bool
  | _, [] => false
  | [], _ :: _ => true
  | a :: as, b :: bs =>
    if a.toNat < b.toNat then true
    else if b.toNat < a.toNat then false
    else qstringLt as bs

/-- `QMap<QString, QColor>::insert(key, value)` on a key-sorted association list. -/
def qmapInsert (key : String) (value : Nat) : List (String × Nat) → List (String × Nat)
  | [] => [(key, value)]
  | (k, v) :: rest =>
    if qstringLt key.data k.data then (key, value) :: (k, v) :: rest
    else if key = k then (key, value) :: rest
    else (k, v) :: qmapInsert key value rest

/-- Flag `Qt::WindowMinimized`. -/
def WindowMinimized : Nat := 0x00000001

/-- The base-class `AbstractWindowContext::virtual_hook(id, data)`: the payload after the call
and the calls made.  `MAKE_RGBA_COLOR` is a macro of an included header and is a parameter;
a colour is kept as the `quint32` it is constructed from.  In the `Centralize` branch every
`int` operation (the subtractions, and the additions of `pos += topLeft`) is wrapped; the
division by 2 truncates and cannot overflow. -/
def virtual_hook (MAKE_RGBA_COLOR : Nat → Nat → Nat → Nat → Nat) (d : Toolkit) (s : Ctx)
    (id : WindowContextHook) (data : HookData) : Option (HookData × List Effect) :=
  match id with
  | .CentralizeHook =>
    match s.m_windowHandle with
    | none => none
    | some w =>
      let screenGeometry := d.screenGeometry w
      let x := Int.tdiv (wrapInt32 (screenGeometry.width - (d.size w).width)) 2
      let y := Int.tdiv (wrapInt32 (screenGeometry.height - (d.size w).height)) 2
      let pos : QPoint :=
        { x := wrapInt32 (x + screenGeometry.topLeft.x),
          y := wrapInt32 (y + screenGeometry.topLeft.y) }
      some (data, [Effect.setPosition w pos])
  | .RaiseWindowHook =>
    match s.m_delegate with
    | none => none
    | some _ =>
      let state := d.getWindowState s.m_host
      if state &&& WindowMinimized ≠ 0 then
        some (data, [Effect.setWindowState s.m_host (state &&& (0xFFFFFFFF - WindowMinimized)),
                     Effect.bringWindowToTop s.m_host])
      else some (data, [Effect.bringWindowToTop s.m_host])
  | .DefaultColorsHook =>
    match data with
    | .colorMap _ =>
      let map : List (String × Nat) := []
      let map := qmapInsert "activeLight" (MAKE_RGBA_COLOR 210 233 189 226) map
      let map := qmapInsert "activeDark" (MAKE_RGBA_COLOR 177 205 190 240) map
      let map := qmapInsert "inactiveLight" (MAKE_RGBA_COLOR 193 195 211 203) map
      let map := qmapInsert "inactiveDark" (MAKE_RGBA_COLOR 240 240 250 255) map
      some (.colorMap map, [])
    | _ => none
  | _ => some (data, [])

/-- `AbstractWindowContext::setWindowAttribute(key, var)`.  The hook is dispatched dynamically:
the call is recorded, followed by what the base-class hook does.  Reading `it.value()` when
`find` returned the end iterator has no defined result. -/
def setWindowAttribute (MAKE_RGBA_COLOR : Nat → Nat → Nat → Nat → Nat) (d : Toolkit) (s : Ctx)
    (key : String) (var : QVariant) : Option (Ctx × List Effect) :=
  match s.m_windowAttributes.lookup key with
  | none => none
  | some value =>
    if value = var then some (s, [])
    else
      let newVar := var
      let oldVar := value
      let args := HookData.attributeArgs key newVar oldVar
      match virtual_hook MAKE_RGBA_COLOR d s .WindowAttributeChangedHook args with
      | none => none
      | some (_, effects) =>
        some (s, Effect.virtual_hook .WindowAttributeChangedHook args :: effects)

/-- `AbstractWindowContext::setHitTestVisible(obj, visible)`.  The `QSet` is a list without
repetitions: `insert` adds a new member only, `remove` deletes the member. -/
def setHitTestVisible (s : Ctx) (obj : QObjectPtr) (visible : Bool) : Bool × Ctx :=
  if obj.isNone then (false, s)
  else if visible then
    (true, { s with m_hitTestVisibleItems :=
      if obj ∈ s.m_hitTestVisibleItems then s.m_hitTestVisibleItems
      else obj :: s.m_hitTestVisibleItems })
  else
    (true, { s with m_hitTestVisibleItems := s.m_hitTestVisibleItems.filter (fun w => w ≠ obj) })

/-- `AbstractWindowContext::setSystemButton(button, obj)`. -/
def setSystemButton (B : SystemButton) (s : Ctx) (button : Nat) (obj : QObjectPtr) :
    Bool × Ctx :=
  if button = B.Unknown then (false, s)
  else if s.m_systemButtons button = obj then (false, s)
  else (true, { s with m_systemButtons := Function.update s.m_systemButtons button obj })

/-- `AbstractWindowContext::setTitleBar(item)`. -/
def setTitleBar (s : Ctx) (item : QObjectPtr) : Bool × Ctx :=
  if s.m_titleBar = item then (false, s)
  else (true, { s with m_titleBar := item })

/-- `AbstractWindowContext::showSystemMenu(pos)`. -/
def showSystemMenu (MAKE_RGBA_COLOR : Nat → Nat → Nat → Nat → Nat) (d : Toolkit) (s : Ctx)
    (pos : QPoint) : Option (Ctx × List Effect) :=
  match virtual_hook MAKE_RGBA_COLOR d s .ShowSystemMenuHook (.point pos) with
  | none => none
  | some (_, effects) => some (s, Effect.virtual_hook .ShowSystemMenuHook (.point pos) :: effects)

/-- `AbstractWindowContext::notifyWinIdChange()`. -/
def notifyWinIdChange (d : Toolkit) (s : Ctx) : Option (Ctx × List Effect) :=
  if !s.m_internalEnabled then some (s, [])
  else
    let oldWindow := s.m_windowHandle
    if oldWindow = s.m_windowHandle then some (s, [])
    else
      let isDestroyed := oldWindow.isSome && s.m_windowHandleCache.isNone
      match s.m_delegate with
      | none => none
      | some _ =>
        let w := d.window s.m_host
        some ({ s with m_windowHandle := w, m_windowHandleCache := w },
              [Effect.winIdChanged oldWindow isDestroyed])

/-- `AbstractWindowContext::setEnabled(enabled)`. -/
def setEnabled (d : Toolkit) (s : Ctx) (enabled : Bool) : Option (Ctx × List Effect) :=
  if enabled = s.m_internalEnabled then some (s, [])
  else
    let s1 := { s with m_internalEnabled := enabled }
    if enabled then
      match s1.m_delegate with
      | none => none
      | some _ =>
        let w := d.window s1.m_host
        let s2 := { s1 with m_windowHandle := w, m_windowHandleCache := w }
        if w.isSome then some (s2, [Effect.winIdChanged none false])
        else some (s2, [])
    else if s1.m_windowHandle.isNone then some (s1, [])
    else
      let oldWindow := s1.m_windowHandle
      some ({ s1 with m_windowHandle := none, m_windowHandleCache := none },
            [Effect.winIdChanged oldWindow false])

/-- `AbstractWindowContext::setup(host, delegate)`. -/
def setup (d : Toolkit) (s : Ctx) (host : QObjectPtr) (delegate : DelegatePtr) :
    Option (Ctx × List Effect) :=
  if s.m_host.isSome || host.isNone || delegate.isNone then some (s, [])
  else setEnabled d { s with m_host := host, m_delegate := delegate } true

/-! ## Operation sequences -/

/-- Modelled from the spec: the state of a freshly constructed context.  The constructor is
defaulted and the member initialisers are in the class declaration, which is not part of the
source.  A new context has no host and no delegate, is Detached (window handle and cache
null) and disabled, and has nothing registered and no attributes. -/
def Ctx.init : Ctx :=
  { m_host := none, m_delegate := none, m_windowHandle := none, m_windowHandleCache := none,
    m_internalEnabled := false, m_titleBar := none, m_systemButtons := fun _ => none,
    m_hitTestVisibleItems := [], m_windowAttributes := [] }

/-- A call of one of the public state-changing member functions. -/
inductive Op where
  | setup (host : QObjectPtr) (delegate : DelegatePtr)
  | setWindowAttribute (key : String) (var : QVariant)
  | setHitTestVisible (obj : QObjectPtr) (visible : Bool)
  | setSystemButton (button : Nat) (obj : QObjectPtr)
  | setTitleBar (item : QObjectPtr)
  | showSystemMenu (pos : QPoint)
  | notifyWinIdChange
  | setEnabled (enabled : Bool)
deriving DecidableEq, Repr

/-- Runs one call: the state after it and the calls it made, `none` when it has no defined
result. -/
def Op.run (B : SystemButton) (MAKE_RGBA_COLOR : Nat → Nat → Nat → Nat → Nat) (d : Toolkit)
    (s : Ctx) : Op → Option (Ctx × List Effect)
  | .setup host delegate => QWK.setup d s host delegate
  | .setWindowAttribute key var => QWK.setWindowAttribute MAKE_RGBA_COLOR d s key var
  | .setHitTestVisible obj visible => some ((QWK.setHitTestVisible s obj visible).2, [])
  | .setSystemButton button obj => some ((QWK.setSystemButton B s button obj).2, [])
  | .setTitleBar item => some ((QWK.setTitleBar s item).2, [])
  | .showSystemMenu pos => QWK.showSystemMenu MAKE_RGBA_COLOR d s pos
  | .notifyWinIdChange => QWK.notifyWinIdChange d s
  | .setEnabled enabled => QWK.setEnabled d s enabled

/-- The lifecycle operations: `setup`, `setEnabled` and `notifyWinIdChange`. -/
def Op.isLifecycle : Op → Bool
  | .setup _ _ => true
  | .setEnabled _ => true
  | .notifyWinIdChange => true
  | _ => false

/-- States reachable from a freshly constructed context by calls that return, whatever the
toolkit answers at each call. -/
inductive Reachable (B : SystemButton) (MAKE_RGBA_COLOR : Nat → Nat → Nat → Nat → Nat) :
    Ctx → Prop where
  | init : Reachable B MAKE_RGBA_COLOR Ctx.init
  | step (d : Toolkit) (op : Op) (s t : Ctx) (effects : List Effect) :
      Reachable B MAKE_RGBA_COLOR s → Op.run B MAKE_RGBA_COLOR d s op = some (t, effects) →
      Reachable B MAKE_RGBA_COLOR t

/-- Number of handle-changed notifications (`winIdChanged` calls) among the calls made. -/
def winIdChangedCount (effects : List Effect) : Nat :=
  effects.countP (fun e => match e with
    | .winIdChanged _ _ => true
    | _ => false)

/-- Number of dispatches of the attribute-changed hook among the calls made. -/
def attributeChangedCount (effects : List Effect) : Nat :=
  effects.countP (fun e => match e with
    | .virtual_hook .WindowAttributeChangedHook _ => true
    | _ => false)

/-! ## Vocabulary of the specification -/

/-- The item is non-null, visible, enabled, and its mapped geometry contains `p`. -/
def itemHit (d : Toolkit) (p : QPoint) (item : QObjectPtr) : Bool :=
  item.isSome && d.isVisible item && d.isEnabled item && (d.mapGeometryToScene item).contains p

/-- Role `r` holds a registered, visible, enabled system button whose geometry contains `p`. -/
def buttonHit (d : Toolkit) (s : Ctx) (p : QPoint) (r : Nat) : Bool :=
  itemHit d p (s.m_systemButtons r)

/-! ## The scenario of the specification

Title bar spanning (0,0)-(800,32), close button at (760,4)-(792,28), in a window of size
800 x 600; the enumeration laid out as Unknown, WindowIcon, Help, Minimize, Maximize, Close. -/

/-- Enumerator values used in the examples. -/
def exampleButtons : SystemButton := { Unknown := 0, WindowIcon := 1, Close := 5 }

/-- Colour macro used in the examples: the four bytes packed as ARGB. -/
def exampleRgba (r g b a : Nat) : Nat :=
  ((a % 256) * 16777216) + ((r % 256) * 65536) + ((g % 256) * 256) + (b % 256)

/-- Toolkit of the scenario: host 1 has window 3 of size 800 x 600, item 10 is the title bar,
item 15 the close button, item 20 a control at (100,4)-(200,28); all visible and enabled. -/
def exampleToolkit : Toolkit :=
  { isVisible := fun _ => true
    isEnabled := fun _ => true
    mapGeometryToScene := fun item =>
      if item = some 10 then { x1 := 0, y1 := 0, x2 := 800, y2 := 32 }
      else if item = some 15 then { x1 := 760, y1 := 4, x2 := 792, y2 := 28 }
      else if item = some 20 then { x1 := 100, y1 := 4, x2 := 200, y2 := 28 }
      else { x1 := 0, y1 := 0, x2 := -1, y2 := -1 }
    window := fun host => if host = some 1 then some 3 else none
    getWindowState := fun _ => 0
    size := fun _ => { width := 800, height := 600 }
    screenGeometry := fun _ => { x1 := 0, y1 := 0, x2 := 1919, y2 := 1079 } }

/-- Context of the scenario: set up, enabled, Attached to window 3, title bar and close
button registered. -/
def exampleCtx : Ctx :=
  { m_host := some 1, m_delegate := some 2, m_windowHandle := some 3,
    m_windowHandleCache := some 3, m_internalEnabled := true, m_titleBar := some 10,
    m_systemButtons := fun i => if i = 5 then some 15 else none,
    m_hitTestVisibleItems := [], m_windowAttributes := [("snap-layout", QVariant.bool false)] }

/-- The scenario with item 20, a control lying on the title bar, already in the
hit-test-visible set. -/
def exampleOverrideCtx : Ctx :=
  { exampleCtx with m_hitTestVisibleItems := [some 20] }

/-- The scenario after the host was reparented: the delegate now answers window 4. -/
def exampleReparentedToolkit : Toolkit :=
  { exampleToolkit with window := fun _ => some 4 }

/-- The context right after `setup(host 1, delegate 2)` on a freshly constructed context in
the scenario. -/
def exampleFreshSetUpCtx : Ctx :=
  { Ctx.init with m_host := some 1, m_delegate := some 2, m_internalEnabled := true,
                  m_windowHandle := some 3, m_windowHandleCache := some 3 }

/-- Lifecycle invariant: a disabled context holds no window handle, a context without
delegate is disabled, and a context without host has no delegate. -/
def LifecycleInv (s : Ctx) : Prop :=
  (s.m_internalEnabled = false → s.m_windowHandle = none) ∧
  (s.m_delegate = none → s.m_internalEnabled = false) ∧
  (s.m_host = none → s.m_delegate = none)

/-- Toolkit of the scenario with the title bar moved to (900,0)-(1000,32), outside the window
of size 800 x 600. -/
def exampleOffWindowToolkit : Toolkit :=
  { exampleToolkit with
    mapGeometryToScene := fun item =>
      if item = some 10 then { x1 := 900, y1 := 0, x2 := 1000, y2 := 32 }
      else exampleToolkit.mapGeometryToScene item }

/-- Toolkit of the scenario with the host window minimized and maximized (flags 1 and 2). -/
def exampleMinimizedToolkit : Toolkit :=
  { exampleToolkit with getWindowState := fun _ => 3 }

/-- The context after `setup(host 1, delegate 2)`, `setTitleBar(item 10)` and
`setEnabled(false)` on a freshly constructed context in the scenario: set up, title bar
registered, disabled and Detached. -/
def exampleDetachedCtx : Ctx :=
  { Ctx.init with m_host := some 1, m_delegate := some 2, m_titleBar := some 10 }

/-- The top-left position that centres a window of the given size in the screen geometry, in
the words of the specification and on the mathematical integers: the screen's top-left corner
plus half of the free space on each axis, halved by truncating division.  The screen's extent
on an axis is `x2 - x1 + 1`. -/
def centeredTopLeft (screenGeometry : QRect) (size : QSize) : QPoint :=
  { x := screenGeometry.x1 +
      Int.tdiv (screenGeometry.x2 - screenGeometry.x1 + 1 - size.width) 2,
    y := screenGeometry.y1 +
      Int.tdiv (screenGeometry.y2 - screenGeometry.y1 + 1 - size.height) 2 }

/-- None of the `int` operations of the `Centralize` hook overflows for this screen geometry
and window size: the screen's width and height, their differences with the window's width
and height, and the sums with the screen's top-left corner are in the 32-bit range. -/
abbrev centralizeFits (screenGeometry : QRect) (size : QSize) : Prop :=
  isInt32 (screenGeometry.x2 - screenGeometry.x1) ∧
  isInt32 (screenGeometry.x2 - screenGeometry.x1 + 1) ∧
  isInt32 (screenGeometry.x2 - screenGeometry.x1 + 1 - size.width) ∧
  isInt32 (Int.tdiv (screenGeometry.x2 - screenGeometry.x1 + 1 - size.width) 2 +
    screenGeometry.x1) ∧
  isInt32 (screenGeometry.y2 - screenGeometry.y1) ∧
  isInt32 (screenGeometry.y2 - screenGeometry.y1 + 1) ∧
  isInt32 (screenGeometry.y2 - screenGeometry.y1 + 1 - size.height) ∧
  isInt32 (Int.tdiv (screenGeometry.y2 - screenGeometry.y1 + 1 - size.height) 2 +
    screenGeometry.y1)

/-- Toolkit of the scenario with the 1920 x 1080 screen placed at (-2147483000, 0), near the
lower end of the `int` range, and a window of size 4000 x 600. -/
def exampleFarLeftToolkit : Toolkit :=
  { exampleToolkit with
    size := fun _ => { width := 4000, height := 600 }
    screenGeometry := fun _ =>
      { x1 := -2147483000, y1 := 0, x2 := -2147481081, y2 := 1079 } }

/-- Gap between the leading edge of the screen and a window placed at `x`. -/
def leadingGap (screenStart x : Int) : Int := x - screenStart

/-- Gap between a window of extent `extent` placed at `x` and the trailing edge of a screen
that starts at `screenStart` and has extent `screenExtent`. -/
def trailingGap (screenStart screenExtent x extent : Int) : Int :=
  (screenStart + screenExtent) - (x + extent)

/-- The context after `setup(host 1, delegate 2)` and `setEnabled(false)` on a freshly
constructed context in the scenario: set up, disabled and Detached. -/
def exampleDisabledCtx : Ctx :=
  { Ctx.init with m_host := some 1, m_delegate := some 2 }

/-! ## Hit testing -/

/-- One iteration of the scan in `isInSystemButtons`, once the delegate is known non-null. -/
theorem isInSystemButtonsLoop_succ (B : SystemButton) (d : Toolkit) (s : Ctx) (p : QPoint)
    (hd : s.m_delegate.isSome = true) (n i : Nat) :
    isInSystemButtonsLoop B d s p (n + 1) i =
      if buttonHit d s p i = true then some (true, i)
      else isInSystemButtonsLoop B d s p n (i + 1) := by
  obtain ⟨a, ha⟩ := Option.isSome_iff_exists.mp hd
  rw [isInSystemButtonsLoop]
  simp only [ha, buttonHit, itemHit]
  split_ifs <;> simp_all

/-- The scan reports the first slot of its range that is hit. -/
theorem isInSystemButtonsLoop_hit (B : SystemButton) (d : Toolkit) (s : Ctx) (p : QPoint)
    (hd : s.m_delegate.isSome = true) (r : Nat) (hr : buttonHit d s p r = true) :
    ∀ (n i : Nat), i ≤ r → r < i + n →
      (∀ k, i ≤ k → k < r → buttonHit d s p k = false) →
      isInSystemButtonsLoop B d s p n i = some (true, r) := by
  intro n
  induction n with
  | zero => intro i h1 h2; omega
  | succ n ih =>
    intro i h1 h2 hlow
    rw [isInSystemButtonsLoop_succ B d s p hd]
    rcases Nat.eq_or_lt_of_le h1 with h | h
    · subst h; simp [hr]
    · have hi : buttonHit d s p i = false := hlow i (Nat.le_refl i) h
      simp only [hi, Bool.false_eq_true, if_false]
      exact ih (i + 1) h (by omega) (fun k hk1 hk2 => hlow k (by omega) hk2)

/-- The scan reports no hit and the sentinel when no slot of its range is hit. -/
theorem isInSystemButtonsLoop_miss (B : SystemButton) (d : Toolkit) (s : Ctx) (p : QPoint)
    (hd : s.m_delegate.isSome = true) :
    ∀ (n i : Nat), (∀ k, i ≤ k → k < i + n → buttonHit d s p k = false) →
      isInSystemButtonsLoop B d s p n i = some (false, B.Unknown) := by
  intro n
  induction n with
  | zero => intro i _; rfl
  | succ n ih =>
    intro i hall
    rw [isInSystemButtonsLoop_succ B d s p hd]
    have hi : buttonHit d s p i = false := hall i (Nat.le_refl i) (by omega)
    simp only [hi, Bool.false_eq_true, if_false]
    exact ih (i + 1) (fun k hk1 hk2 => hall k (by omega) (by omega))

/-- A reported hit is a slot of the scanned range that is hit.  No assumption on the
delegate: a result is only produced after it was dereferenced. -/
theorem isInSystemButtonsLoop_true (B : SystemButton) (d : Toolkit) (s : Ctx) (p : QPoint)
    (r : Nat) :
    ∀ (n i : Nat), isInSystemButtonsLoop B d s p n i = some (true, r) →
      i ≤ r ∧ r < i + n ∧ buttonHit d s p r = true := by
  intro n
  induction n with
  | zero => intro i h; simp [isInSystemButtonsLoop] at h
  | succ n ih =>
    intro i h
    have next : isInSystemButtonsLoop B d s p n (i + 1) = some (true, r) →
        i ≤ r ∧ r < i + (n + 1) ∧ buttonHit d s p r = true := by
      intro h2
      obtain ⟨h3, h4, h5⟩ := ih (i + 1) h2
      exact ⟨by omega, by omega, h5⟩
    rw [isInSystemButtonsLoop] at h
    cases hb : s.m_systemButtons i with
    | none => rw [hb] at h; exact next (by simpa using h)
    | some b =>
      rw [hb] at h
      cases hdl : s.m_delegate with
      | none => rw [hdl] at h; simp at h
      | some a =>
        rw [hdl] at h
        cases hv : d.isVisible (some b) <;> cases he : d.isEnabled (some b) <;>
          cases hc : (d.mapGeometryToScene (some b)).contains p <;>
          simp [hv, he, hc] at h <;> first
            | exact next h
            | (subst h; exact ⟨Nat.le_refl _, by omega, by simp [buttonHit, itemHit, hb, hv, he, hc]⟩)

/-- The button loop of `isInTitleBarDraggableArea` leaves the function exactly when some slot
of its range is hit. -/
theorem titleBarButtonLoop_eq_true_iff (d : Toolkit) (s : Ctx) (p : QPoint) :
    ∀ (n i : Nat), titleBarButtonLoop d s p n i = true ↔
      ∃ r, i ≤ r ∧ r < i + n ∧ buttonHit d s p r = true := by
  intro n
  induction n with
  | zero =>
    intro i
    simp only [titleBarButtonLoop, Bool.false_eq_true, false_iff]
    rintro ⟨r, h1, h2, _⟩
    omega
  | succ n ih =>
    intro i
    rw [titleBarButtonLoop]
    have hcond : (((s.m_systemButtons i).isSome && d.isVisible (s.m_systemButtons i) &&
        d.isEnabled (s.m_systemButtons i) &&
        (d.mapGeometryToScene (s.m_systemButtons i)).contains p) = true) ↔
        buttonHit d s p i = true := by simp [buttonHit, itemHit]
    by_cases hi : buttonHit d s p i = true
    · rw [if_pos (hcond.mpr hi)]
      exact ⟨fun _ => ⟨i, Nat.le_refl i, by omega, hi⟩, fun _ => rfl⟩
    · have hf : ¬ (((s.m_systemButtons i).isSome && d.isVisible (s.m_systemButtons i) &&
          d.isEnabled (s.m_systemButtons i) &&
          (d.mapGeometryToScene (s.m_systemButtons i)).contains p) = true) :=
        fun h => hi (hcond.mp h)
      rw [if_neg hf, ih (i + 1)]
      constructor
      · rintro ⟨r, h1, h2, h3⟩
        exact ⟨r, by omega, by omega, h3⟩
      · rintro ⟨r, h1, h2, h3⟩
        rcases Nat.eq_or_lt_of_le h1 with h | h
        · subst h; exact absurd h3 hi
        · exact ⟨r, h, by omega, h3⟩

/-- The number of iterations covers exactly the roles `WindowIcon .. Close`. -/
theorem scan_range (B : SystemButton) (r : Nat) :
    (B.WindowIcon ≤ r ∧ r < B.WindowIcon + (B.Close + 1 - B.WindowIcon)) ↔
      (B.WindowIcon ≤ r ∧ r ≤ B.Close) := by
  omega

/-- C1: on a set-up context (the delegate is bound), whatever the delegate answers and for
every position `p`: if `r` is the lowest role of the ascending range `WindowIcon .. Close`
whose registered item is non-null, visible, enabled and has `p` inside its mapped geometry,
then `isInSystemButtons(p)` returns `true` with the role set to `r`; and if no role of that
range qualifies, it returns `false` with the role set to `Unknown`. -/
theorem isInSystemButtons_lowest_hit (B : SystemButton) (d : Toolkit) (s : Ctx) (p : QPoint)
    (hd : s.m_delegate.isSome = true) :
    (∀ r, B.WindowIcon ≤ r → r ≤ B.Close → buttonHit d s p r = true →
        (∀ k, B.WindowIcon ≤ k → k < r → buttonHit d s p k = false) →
        isInSystemButtons B d s p = some (true, r)) ∧
    ((∀ r, B.WindowIcon ≤ r → r ≤ B.Close → buttonHit d s p r = false) →
        isInSystemButtons B d s p = some (false, B.Unknown)) := by
  constructor
  · intro r h1 h2 hr hlow
    exact isInSystemButtonsLoop_hit B d s p hd r hr _ _ h1
      ((scan_range B r).mpr ⟨h1, h2⟩).2 hlow
  · intro hall
    exact isInSystemButtonsLoop_miss B d s p hd _ _
      (fun k hk1 hk2 => hall k hk1 ((scan_range B k).mp ⟨hk1, hk2⟩).2)

/-- Witness of C1 on the scenario: (780,16) is a hit on Close (role 5). -/
theorem isInSystemButtons_lowest_hit_witness :
    isInSystemButtons exampleButtons exampleToolkit exampleCtx { x := 780, y := 16 } =
      some (true, 5) :=
  (isInSystemButtons_lowest_hit exampleButtons exampleToolkit exampleCtx { x := 780, y := 16 }
    rfl).1 5 (by decide) (by decide) (by decide)
    (by
      intro k h1 h2
      have h3 : 1 ≤ k := h1
      interval_cases k <;> decide)

/-- C2: buttons take precedence over drag.  On a set-up context with a bound window handle,
if `isInSystemButtons(p)` reports a hit, or equivalently `p` lies in the mapped geometry of a
registered, visible, enabled system button, then `isInTitleBarDraggableArea(p)` returns
`false`. -/
theorem buttons_precede_drag (B : SystemButton) (d : Toolkit) (s : Ctx) (p : QPoint)
    (hd : s.m_delegate.isSome = true) (hw : s.m_windowHandle.isSome = true)
    (hit : (∃ r, isInSystemButtons B d s p = some (true, r)) ∨
      (∃ r, B.WindowIcon ≤ r ∧ r ≤ B.Close ∧ buttonHit d s p r = true)) :
    isInTitleBarDraggableArea B d s p = some false := by
  have hbtn : ∃ r, B.WindowIcon ≤ r ∧ r ≤ B.Close ∧ buttonHit d s p r = true := by
    rcases hit with ⟨r, hr⟩ | h
    · obtain ⟨h1, h2, h3⟩ := isInSystemButtonsLoop_true B d s p r _ _ hr
      exact ⟨r, h1, ((scan_range B r).mp ⟨h1, h2⟩).2, h3⟩
    · exact h
  have hloop : titleBarButtonLoop d s p (B.Close + 1 - B.WindowIcon) B.WindowIcon = true := by
    rw [titleBarButtonLoop_eq_true_iff]
    obtain ⟨r, h1, h2, h3⟩ := hbtn
    exact ⟨r, h1, ((scan_range B r).mpr ⟨h1, h2⟩).2, h3⟩
  obtain ⟨a, ha⟩ := Option.isSome_iff_exists.mp hd
  obtain ⟨w, hw⟩ := Option.isSome_iff_exists.mp hw
  unfold isInTitleBarDraggableArea
  simp only [ha, hw, hloop, if_true]
  split_ifs <;> rfl

/-- Witness of C2 on the scenario: (780,16) hits Close and is not draggable. -/
theorem buttons_precede_drag_witness :
    isInSystemButtons exampleButtons exampleToolkit exampleCtx { x := 780, y := 16 } =
        some (true, 5) ∧
      isInTitleBarDraggableArea exampleButtons exampleToolkit exampleCtx { x := 780, y := 16 } =
        some false :=
  ⟨by decide,
   buttons_precede_drag exampleButtons exampleToolkit exampleCtx { x := 780, y := 16 } rfl rfl
    (Or.inl ⟨5, by decide⟩)⟩

/-- C3: with a bound window handle and a registered, visible, enabled title bar whose mapped
geometry intersects the window rectangle, `isInTitleBarDraggableArea(p)` returns a value, and
the value is `true` exactly when `p` is inside the title-bar geometry, inside no registered
visible and enabled system button, and inside no visible and enabled member of the
hit-test-visible set. -/
theorem draggable_iff (B : SystemButton) (d : Toolkit) (s : Ctx) (p : QPoint) (w : Nat)
    (hd : s.m_delegate.isSome = true) (hw : s.m_windowHandle = some w)
    (ht : s.m_titleBar.isSome = true) (hv : d.isVisible s.m_titleBar = true)
    (he : d.isEnabled s.m_titleBar = true)
    (hi : (d.mapGeometryToScene s.m_titleBar).intersects
      (QRect.ofTopLeftSize { x := 0, y := 0 } (d.size w)) = true) :
    (∃ b, isInTitleBarDraggableArea B d s p = some b) ∧
    (isInTitleBarDraggableArea B d s p = some true ↔
      ((d.mapGeometryToScene s.m_titleBar).contains p = true ∧
        (∀ r, B.WindowIcon ≤ r → r ≤ B.Close → buttonHit d s p r = false) ∧
        (∀ item ∈ s.m_hitTestVisibleItems, itemHit d p item = false))) := by
  obtain ⟨a, ha⟩ := Option.isSome_iff_exists.mp hd
  have hnone : s.m_titleBar.isNone = false := by
    cases h : s.m_titleBar with
    | none => rw [h] at ht; simp at ht
    | some _ => rfl
  have hbtn : (titleBarButtonLoop d s p (B.Close + 1 - B.WindowIcon) B.WindowIcon = true) ↔
      ¬ (∀ r, B.WindowIcon ≤ r → r ≤ B.Close → buttonHit d s p r = false) := by
    rw [titleBarButtonLoop_eq_true_iff]
    constructor
    · rintro ⟨r, h1, h2, h3⟩ hall
      have := hall r h1 ((scan_range B r).mp ⟨h1, h2⟩).2
      rw [h3] at this
      exact Bool.noConfusion this
    · intro hne
      by_contra hex
      apply hne
      intro r h1 h2
      cases hr : buttonHit d s p r with
      | false => rfl
      | true => exact absurd ⟨r, h1, ((scan_range B r).mpr ⟨h1, h2⟩).2, hr⟩ hex
  have hany : (s.m_hitTestVisibleItems.any (fun widget =>
      widget.isSome && d.isVisible widget && d.isEnabled widget &&
        (d.mapGeometryToScene widget).contains p) = true) ↔
      ¬ (∀ item ∈ s.m_hitTestVisibleItems, itemHit d p item = false) := by
    simp [itemHit, and_assoc]
  unfold isInTitleBarDraggableArea
  simp only [hnone, ha, hw, hv, he, hi]
  by_cases hc : (d.mapGeometryToScene s.m_titleBar).contains p = true
  · by_cases hb : titleBarButtonLoop d s p (B.Close + 1 - B.WindowIcon) B.WindowIcon = true
    · have hb2 := hbtn.mp hb
      simp [hc, hb, hb2]
    · have hb2 : ∀ r, B.WindowIcon ≤ r → r ≤ B.Close → buttonHit d s p r = false := by
        by_contra h; exact hb (hbtn.mpr h)
      by_cases hy : s.m_hitTestVisibleItems.any (fun widget =>
          widget.isSome && d.isVisible widget && d.isEnabled widget &&
            (d.mapGeometryToScene widget).contains p) = true
      · have hy2 := hany.mp hy
        simp only [hc, hb, hy]
        simp [hb2, hy2]
      · have hy2 : ∀ item ∈ s.m_hitTestVisibleItems, itemHit d p item = false := by
          by_contra h; exact hy (hany.mpr h)
        simp only [hc, hb, hy]
        simp only [Bool.false_eq_true, Bool.not_true, if_false, true_and]
        exact ⟨⟨true, rfl⟩, fun _ => ⟨hb2, hy2⟩, fun _ => rfl⟩
  · simp [hc]

/-- Witness of C3 on the scenario: (400,16) is draggable, (400,500) is not. -/
theorem draggable_iff_witness :
    isInTitleBarDraggableArea exampleButtons exampleToolkit exampleCtx { x := 400, y := 16 } =
        some true ∧
      ¬ (isInTitleBarDraggableArea exampleButtons exampleToolkit exampleCtx
        { x := 400, y := 500 } = some true) :=
  ⟨(draggable_iff exampleButtons exampleToolkit exampleCtx { x := 400, y := 16 } 3
      rfl rfl rfl rfl rfl (by decide)).2.mpr
      ⟨by decide,
       by
        intro r h1 h2
        have h3 : 1 ≤ r := h1
        have h4 : r ≤ 5 := h2
        interval_cases r <;> decide,
       by intro item hmem; cases hmem⟩,
   fun h =>
    absurd ((draggable_iff exampleButtons exampleToolkit exampleCtx { x := 400, y := 500 } 3
      rfl rfl rfl rfl rfl (by decide)).2.mp h).1 (by decide)⟩

/-! ## Hit-test-visible set -/

/-- Adding a new member to the hit-test-visible set and removing it again restores the
state. -/
theorem setHitTestVisible_insert_remove (s : Ctx) (item : Nat)
    (hnew : some item ∉ s.m_hitTestVisibleItems) :
    (setHitTestVisible (setHitTestVisible s (some item) true).2 (some item) false).2 = s := by
  have hfilter : List.filter (fun w => decide (w ≠ some item)) s.m_hitTestVisibleItems =
      s.m_hitTestVisibleItems := by
    rw [List.filter_eq_self]
    intro a ha
    have : a ≠ some item := fun h => hnew (h ▸ ha)
    simpa using this
  cases s
  simp only [setHitTestVisible, Option.isNone_some, Bool.false_eq_true, if_false, if_true] at *
  simp only [if_neg hnew, List.filter_cons_of_neg, ne_eq, not_true_eq_false, decide_False,
    Bool.false_eq_true, not_false_eq_true, hfilter]

/-- Counterexample to C4 as stated: item 20 is already in the hit-test-visible set and
(150,16) lies inside its geometry; before the two calls the position is not draggable, after
them it is. -/
theorem hitTestVisible_toggle_counterexample :
    (exampleToolkit.mapGeometryToScene (some 20)).contains { x := 150, y := 16 } = true ∧
    isInTitleBarDraggableArea exampleButtons exampleToolkit exampleOverrideCtx
      { x := 150, y := 16 } = some false ∧
    isInTitleBarDraggableArea exampleButtons exampleToolkit
      (setHitTestVisible (setHitTestVisible exampleOverrideCtx (some 20) true).2
        (some 20) false).2 { x := 150, y := 16 } = some true := by
  decide

/-- C4 (amended): for every context state, every non-null item that is not yet a member of
the hit-test-visible set and every position `p`, `setHitTestVisible(item, true)` followed by
`setHitTestVisible(item, false)` both succeed, restore the context state, and so
`isInTitleBarDraggableArea(p)` returns what it returned before the two calls (the toolkit
answers held fixed). -/
theorem hitTestVisible_toggle_restores (B : SystemButton) (d : Toolkit) (s : Ctx) (item : Nat)
    (p : QPoint) (hnew : some item ∉ s.m_hitTestVisibleItems) :
    (setHitTestVisible s (some item) true).1 = true ∧
    (setHitTestVisible (setHitTestVisible s (some item) true).2 (some item) false).1 = true ∧
    isInTitleBarDraggableArea B d
      (setHitTestVisible (setHitTestVisible s (some item) true).2 (some item) false).2 p =
      isInTitleBarDraggableArea B d s p := by
  refine ⟨by simp [setHitTestVisible], by simp [setHitTestVisible], ?_⟩
  rw [setHitTestVisible_insert_remove s item hnew]

/-- Witness of C4 (amended) on the scenario: item 20 is not in the set of `exampleCtx`, and
(150,16) is draggable before and after the two calls. -/
theorem hitTestVisible_toggle_restores_witness :
    isInTitleBarDraggableArea exampleButtons exampleToolkit
      (setHitTestVisible (setHitTestVisible exampleCtx (some 20) true).2 (some 20) false).2
        { x := 150, y := 16 } =
      isInTitleBarDraggableArea exampleButtons exampleToolkit exampleCtx { x := 150, y := 16 } :=
  (hitTestVisible_toggle_restores exampleButtons exampleToolkit exampleCtx 20
    { x := 150, y := 16 } (by decide)).2.2

/-! ## Window handle lifecycle -/

/-- The handle comparison in `notifyWinIdChange` is between `oldWindow` and the member it was
just copied from: the function returns before the re-query, whatever the state. -/
theorem notifyWinIdChange_eq (d : Toolkit) (s : Ctx) : notifyWinIdChange d s = some (s, []) := by
  unfold notifyWinIdChange
  split_ifs <;> simp_all

/-- The base-class hook makes no change to the context: `setWindowAttribute` returns the
state it was called on. -/
theorem setWindowAttribute_state (mk : Nat → Nat → Nat → Nat → Nat) (d : Toolkit) (s t : Ctx)
    (key : String) (var : QVariant) (effects : List Effect)
    (h : setWindowAttribute mk d s key var = some (t, effects)) : t = s := by
  unfold setWindowAttribute at h
  split at h
  · exact Option.noConfusion h
  · split_ifs at h
    · simp only [Option.some.injEq, Prod.mk.injEq] at h; exact h.1.symm
    · dsimp only at h
      split at h
      · exact Option.noConfusion h
      · simp only [Option.some.injEq, Prod.mk.injEq] at h; exact h.1.symm

/-- The call `showSystemMenu` returns the state it was called on. -/
theorem showSystemMenu_state (mk : Nat → Nat → Nat → Nat → Nat) (d : Toolkit) (s t : Ctx)
    (pos : QPoint) (effects : List Effect)
    (h : showSystemMenu mk d s pos = some (t, effects)) : t = s := by
  unfold showSystemMenu at h
  split at h
  · exact Option.noConfusion h
  · simp only [Option.some.injEq, Prod.mk.injEq] at h; exact h.1.symm

/-- What `setEnabled` does to a state that satisfies the lifecycle invariant: the invariant
is kept, and the number of notifications is 1 when the handle changed and 0 otherwise. -/
theorem setEnabled_step (d : Toolkit) (s t : Ctx) (enabled : Bool) (effects : List Effect)
    (hinv : LifecycleInv s) (h : setEnabled d s enabled = some (t, effects)) :
    LifecycleInv t ∧ t.m_host = s.m_host ∧ t.m_delegate = s.m_delegate ∧
      winIdChangedCount effects = if t.m_windowHandle = s.m_windowHandle then 0 else 1 := by
  obtain ⟨h1, h2, h3⟩ := hinv
  unfold setEnabled at h
  by_cases hsame : enabled = s.m_internalEnabled
  · rw [if_pos hsame] at h
    simp only [Option.some.injEq, Prod.mk.injEq] at h
    obtain ⟨rfl, rfl⟩ := h
    exact ⟨⟨h1, h2, h3⟩, rfl, rfl, by simp [winIdChangedCount]⟩
  · rw [if_neg hsame] at h
    cases enabled with
    | true =>
      have hdis : s.m_internalEnabled = false := by
        cases hb : s.m_internalEnabled with
        | false => rfl
        | true => exact absurd hb.symm hsame
      have hnull : s.m_windowHandle = none := h1 hdis
      simp only [if_true] at h
      cases hdl : s.m_delegate with
      | none => simp [hdl] at h
      | some a =>
        simp only [hdl] at h
        cases hw : d.window s.m_host with
        | none =>
          simp only [hw, Option.isSome_none, Bool.false_eq_true, if_false, Option.some.injEq,
            Prod.mk.injEq] at h
          obtain ⟨rfl, rfl⟩ := h
          refine ⟨⟨?_, ?_, ?_⟩, rfl, rfl, ?_⟩
          · intro _; rfl
          · intro hc; simp at hc
          · intro hc; exact absurd (h3 hc) (by simp [hdl])
          · simp [winIdChangedCount, hnull]
        | some w =>
          simp only [hw, Option.isSome_some, if_true, Option.some.injEq, Prod.mk.injEq] at h
          obtain ⟨rfl, rfl⟩ := h
          refine ⟨⟨?_, ?_, ?_⟩, rfl, rfl, ?_⟩
          · intro hc; simp at hc
          · intro hc; simp at hc
          · intro hc; exact absurd (h3 hc) (by simp [hdl])
          · simp [winIdChangedCount, hnull]
    | false =>
      simp only [Bool.false_eq_true, if_false] at h
      cases hw : s.m_windowHandle with
      | none =>
        simp only [hw, Option.isNone_none, if_true, Option.some.injEq, Prod.mk.injEq] at h
        obtain ⟨rfl, rfl⟩ := h
        refine ⟨⟨?_, ?_, ?_⟩, rfl, rfl, ?_⟩
        · intro _; rfl
        · intro _; rfl
        · exact h3
        · simp [winIdChangedCount]
      | some w =>
        simp only [hw, Option.isNone_some, Bool.false_eq_true, if_false, Option.some.injEq,
          Prod.mk.injEq] at h
        obtain ⟨rfl, rfl⟩ := h
        refine ⟨⟨?_, ?_, ?_⟩, rfl, rfl, ?_⟩
        · intro _; rfl
        · intro _; rfl
        · exact h3
        · simp [winIdChangedCount, hw]

/-- What `setup` does to a state that satisfies the lifecycle invariant. -/
theorem setup_step (d : Toolkit) (s t : Ctx) (host : QObjectPtr) (delegate : DelegatePtr)
    (effects : List Effect) (hinv : LifecycleInv s)
    (h : setup d s host delegate = some (t, effects)) :
    LifecycleInv t ∧
      winIdChangedCount effects = if t.m_windowHandle = s.m_windowHandle then 0 else 1 := by
  unfold setup at h
  split_ifs at h with hguard
  · simp only [Option.some.injEq, Prod.mk.injEq] at h
    obtain ⟨rfl, rfl⟩ := h
    exact ⟨hinv, by simp [winIdChangedCount]⟩
  · have hs : s.m_host = none := by
      cases hh : s.m_host with
      | none => rfl
      | some _ => simp [hh] at hguard
    have hhost : host ≠ none := by
      rintro rfl
      simp at hguard
    obtain ⟨h1, h2, h3⟩ := hinv
    have hinv2 : LifecycleInv { s with m_host := host, m_delegate := delegate } := by
      refine ⟨h1, ?_, ?_⟩
      · intro _
        exact h2 (h3 hs)
      · intro hc
        exact absurd hc hhost
    obtain ⟨r1, _, _, r4⟩ := setEnabled_step d _ t true effects hinv2 h
    exact ⟨r1, r4⟩

/-- Every call that returns keeps the lifecycle invariant. -/
theorem run_inv (B : SystemButton) (mk : Nat → Nat → Nat → Nat → Nat) (d : Toolkit)
    (s t : Ctx) (op : Op) (effects : List Effect) (hinv : LifecycleInv s)
    (h : Op.run B mk d s op = some (t, effects)) : LifecycleInv t := by
  cases op with
  | setup host delegate => exact (setup_step d s t host delegate effects hinv h).1
  | setWindowAttribute key var =>
    rw [setWindowAttribute_state mk d s t key var effects h]; exact hinv
  | setHitTestVisible obj visible =>
    simp only [Op.run, Option.some.injEq, Prod.mk.injEq] at h
    obtain ⟨rfl, _⟩ := h
    unfold setHitTestVisible
    split_ifs <;> exact hinv
  | setSystemButton button obj =>
    simp only [Op.run, Option.some.injEq, Prod.mk.injEq] at h
    obtain ⟨rfl, _⟩ := h
    unfold setSystemButton
    split_ifs <;> exact hinv
  | setTitleBar item =>
    simp only [Op.run, Option.some.injEq, Prod.mk.injEq] at h
    obtain ⟨rfl, _⟩ := h
    unfold setTitleBar
    split_ifs <;> exact hinv
  | showSystemMenu pos =>
    rw [showSystemMenu_state mk d s t pos effects h]; exact hinv
  | notifyWinIdChange =>
    simp only [Op.run, notifyWinIdChange_eq, Option.some.injEq, Prod.mk.injEq] at h
    obtain ⟨rfl, _⟩ := h
    exact hinv
  | setEnabled enabled => exact (setEnabled_step d s t enabled effects hinv h).1

/-- Every reachable state satisfies the lifecycle invariant. -/
theorem reachable_inv (B : SystemButton) (mk : Nat → Nat → Nat → Nat → Nat) (s : Ctx)
    (hs : Reachable B mk s) : LifecycleInv s := by
  induction hs with
  | init => exact ⟨fun _ => rfl, fun _ => rfl, fun _ => rfl⟩
  | step d op s t effects _ hrun ih => exact run_inv B mk d s t op effects ih hrun

/-- The call `setEnabled` returns whenever it does not have to dereference a null delegate. -/
theorem setEnabled_total (d : Toolkit) (s : Ctx) (enabled : Bool)
    (h : s.m_delegate.isSome = true ∨ enabled = false) :
    ∃ t effects, setEnabled d s enabled = some (t, effects) := by
  unfold setEnabled
  by_cases hsame : enabled = s.m_internalEnabled
  · rw [if_pos hsame]; exact ⟨_, _, rfl⟩
  · rw [if_neg hsame]
    cases enabled with
    | false =>
      simp only [Bool.false_eq_true, if_false]
      split_ifs <;> exact ⟨_, _, rfl⟩
    | true =>
      have hd : s.m_delegate.isSome = true := by
        rcases h with h | h
        · exact h
        · exact Bool.noConfusion h
      obtain ⟨a, ha⟩ := Option.isSome_iff_exists.mp hd
      simp only [ha, if_true]
      split_ifs <;> exact ⟨_, _, rfl⟩

/-- C5: in every reachable state, whatever the delegate answers, each of the lifecycle
operations `setup`, `setEnabled(b)` and `notifyWinIdChange` returns (unless it is
`setEnabled(true)` on a context that has no delegate yet), and it fires the handle-changed
notification exactly once if the bound window handle after the operation differs from the
one before, and not at all if the bound window handle is unchanged. -/
theorem winIdChanged_once_per_transition (B : SystemButton)
    (mk : Nat → Nat → Nat → Nat → Nat) (d : Toolkit) (s : Ctx) (op : Op)
    (hs : Reachable B mk s) (hop : op.isLifecycle = true) :
    ((s.m_delegate.isSome = true ∨ op ≠ Op.setEnabled true) →
      ∃ t effects, Op.run B mk d s op = some (t, effects)) ∧
    (∀ t effects, Op.run B mk d s op = some (t, effects) →
      winIdChangedCount effects = if t.m_windowHandle = s.m_windowHandle then 0 else 1) := by
  have hinv := reachable_inv B mk s hs
  cases op with
  | setup host delegate =>
    refine ⟨fun _ => ?_, fun t effects h => (setup_step d s t host delegate effects hinv h).2⟩
    simp only [Op.run, setup]
    split_ifs with hguard
    · exact ⟨_, _, rfl⟩
    · apply setEnabled_total
      left
      cases delegate with
      | none => simp at hguard
      | some _ => rfl
  | setEnabled enabled =>
    refine ⟨fun h => ?_, fun t effects h => (setEnabled_step d s t enabled effects hinv h).2.2.2⟩
    apply setEnabled_total
    rcases h with h | h
    · exact Or.inl h
    · cases enabled with
      | false => exact Or.inr rfl
      | true => exact absurd rfl h
  | notifyWinIdChange =>
    refine ⟨fun _ => ⟨s, [], notifyWinIdChange_eq d s⟩, fun t effects h => ?_⟩
    simp only [Op.run, notifyWinIdChange_eq, Option.some.injEq, Prod.mk.injEq] at h
    obtain ⟨rfl, rfl⟩ := h
    simp [winIdChangedCount]
  | setWindowAttribute _ _ => exact Bool.noConfusion hop
  | setHitTestVisible _ _ => exact Bool.noConfusion hop
  | setSystemButton _ _ => exact Bool.noConfusion hop
  | setTitleBar _ => exact Bool.noConfusion hop
  | showSystemMenu _ => exact Bool.noConfusion hop

/-- Witness of C5: `setup` on a freshly constructed context in the scenario returns, binds
window 3 and fires one notification. -/
theorem winIdChanged_once_per_transition_witness :
    Op.run exampleButtons exampleRgba exampleToolkit Ctx.init (Op.setup (some 1) (some 2)) =
        some (exampleFreshSetUpCtx, [Effect.winIdChanged none false]) ∧
      winIdChangedCount [Effect.winIdChanged none false] =
        (if exampleFreshSetUpCtx.m_windowHandle = Ctx.init.m_windowHandle then 0 else 1) :=
  ⟨rfl,
   (winIdChanged_once_per_transition exampleButtons exampleRgba exampleToolkit Ctx.init
      (Op.setup (some 1) (some 2)) Reachable.init rfl).2
      exampleFreshSetUpCtx [Effect.winIdChanged none false] rfl⟩

/-- C6 (the code at the failing input): the context is enabled and holds window 3, the
delegate now answers window 4, and `notifyWinIdChange` returns with the state unchanged and
without any notification. -/
theorem notifyWinIdChange_keeps_stale_handle :
    exampleCtx.m_internalEnabled = true ∧ exampleCtx.m_windowHandle = some 3 ∧
      exampleReparentedToolkit.window exampleCtx.m_host = some 4 ∧
      notifyWinIdChange exampleReparentedToolkit exampleCtx = some (exampleCtx, []) :=
  ⟨rfl, rfl, rfl, notifyWinIdChange_eq exampleReparentedToolkit exampleCtx⟩

/-- Counterexample to C7 as stated: on the context that `setup` has just set up, with window
3 available, `setEnabled(true)` fires no notification (the one notification was fired by
`setup` itself). -/
theorem setEnabled_after_setup_counterexample :
    setup exampleToolkit Ctx.init (some 1) (some 2) =
        some (exampleFreshSetUpCtx, [Effect.winIdChanged none false]) ∧
      exampleToolkit.window exampleFreshSetUpCtx.m_host = some 3 ∧
      setEnabled exampleToolkit exampleFreshSetUpCtx true = some (exampleFreshSetUpCtx, []) ∧
      (setEnabled exampleToolkit exampleFreshSetUpCtx true).map
        (fun r => winIdChangedCount r.2) = some 0 :=
  ⟨rfl, rfl, rfl, rfl⟩

/-- C7 (amended): on a context that is not yet set up and is disabled, with a delegate that
yields a non-null window handle `w`, `setup(host, delegate)` binds `w` and fires exactly one
handle-changed notification, with previousHandle null and wasDestroyed false; every
`setEnabled(true)` on the freshly set-up context then fires none and leaves the state
unchanged. -/
theorem setup_fires_once (d : Toolkit) (s : Ctx) (host delegate w : Nat)
    (hfresh : s.m_host = none) (hdis : s.m_internalEnabled = false)
    (hw : d.window (some host) = some w) :
    ∃ t, setup d s (some host) (some delegate) = some (t, [Effect.winIdChanged none false]) ∧
      t.m_windowHandle = some w ∧ t.m_internalEnabled = true ∧
      ∀ d2 : Toolkit, setEnabled d2 t true = some (t, []) := by
  refine ⟨{ s with m_host := some host, m_delegate := some delegate, m_internalEnabled := true,
                   m_windowHandle := some w, m_windowHandleCache := some w }, ?_, rfl, rfl, ?_⟩
  · simp [setup, setEnabled, hfresh, hdis, hw]
  · intro d2
    simp [setEnabled]

/-- Witness of C7 (amended) on the scenario. -/
theorem setup_fires_once_witness :
    ∃ t, setup exampleToolkit Ctx.init (some 1) (some 2) =
        some (t, [Effect.winIdChanged none false]) ∧
      t.m_windowHandle = some 3 ∧ t.m_internalEnabled = true ∧
      ∀ d2 : Toolkit, setEnabled d2 t true = some (t, []) :=
  setup_fires_once exampleToolkit Ctx.init 1 2 3 rfl rfl rfl

/-- C8: on an enabled context, `setEnabled(false)` while Attached to `h` leaves the handle
and its cache null and fires exactly one handle-changed notification, with previousHandle
`h` and wasDestroyed false; while Detached it fires no notification and leaves the handle
null. -/
theorem setEnabled_false_detaches (d : Toolkit) (s : Ctx) (hen : s.m_internalEnabled = true) :
    (∀ h, s.m_windowHandle = some h →
      setEnabled d s false =
        some ({ s with m_internalEnabled := false, m_windowHandle := none,
                       m_windowHandleCache := none },
              [Effect.winIdChanged (some h) false])) ∧
    (s.m_windowHandle = none →
      setEnabled d s false = some ({ s with m_internalEnabled := false }, []) ∧
        ({ s with m_internalEnabled := false } : Ctx).m_windowHandle = none) := by
  constructor
  · intro h hh
    simp [setEnabled, hen, hh]
  · intro hh
    exact ⟨by simp [setEnabled, hen, hh], hh⟩

/-- Witness of C8 on the scenario: disabling the context Attached to window 3. -/
theorem setEnabled_false_detaches_witness :
    setEnabled exampleToolkit exampleCtx false =
      some ({ exampleCtx with m_internalEnabled := false, m_windowHandle := none,
                              m_windowHandleCache := none },
            [Effect.winIdChanged (some 3) false]) :=
  (setEnabled_false_detaches exampleToolkit exampleCtx rfl).1 3 rfl

/-! ## Attribute store and system-button registry -/

/-- C9 (the code at the failing input): the store holds `false` under the key and the value
`true` is written twice; each of the two calls dispatches the attribute-changed hook once,
and the store still holds `false` afterwards. -/
theorem setWindowAttribute_twice_fires_twice :
    (setWindowAttribute exampleRgba exampleToolkit exampleCtx "snap-layout"
        (QVariant.bool true)).bind
      (fun r1 => (setWindowAttribute exampleRgba exampleToolkit r1.1 "snap-layout"
        (QVariant.bool true)).map
          (fun r2 => (attributeChangedCount r1.2, attributeChangedCount r2.2,
            r2.1.m_windowAttributes))) =
      some (1, 1, [("snap-layout", QVariant.bool false)]) := by
  decide

/-- C10: for every role other than `Unknown` and every item, the second of two
`setSystemButton(role, item)` calls returns `false` and leaves the whole context, the
registry included, as the first call left it. -/
theorem setSystemButton_twice (B : SystemButton) (s : Ctx) (role : Nat) (item : QObjectPtr)
    (hrole : role ≠ B.Unknown) :
    setSystemButton B (setSystemButton B s role item).2 role item =
      (false, (setSystemButton B s role item).2) := by
  by_cases hcur : s.m_systemButtons role = item
  · simp [setSystemButton, hrole, hcur]
  · simp [setSystemButton, hrole, hcur]

/-- Witness of C10: registering item 15 as Close (role 5) twice on a new context. -/
theorem setSystemButton_twice_witness :
    (setSystemButton exampleButtons Ctx.init 5 (some 15)).1 = true ∧
      setSystemButton exampleButtons (setSystemButton exampleButtons Ctx.init 5 (some 15)).2 5
          (some 15) =
        (false, (setSystemButton exampleButtons Ctx.init 5 (some 15)).2) :=
  ⟨by decide, setSystemButton_twice exampleButtons Ctx.init 5 (some 15) (by decide)⟩

/-! ## Rejected and ignored calls -/

/-- C11: for every context state and every item, `setSystemButton(Unknown, item)` returns
`false` and leaves the context, every slot of the registry included, unchanged. -/
theorem setSystemButton_unknown_rejected (B : SystemButton) (s : Ctx) (item : QObjectPtr) :
    setSystemButton B s B.Unknown item = (false, s) := by
  simp [setSystemButton]

/-- C12 (the code at the failing input): item 10 is the registered title bar;
`setTitleBar(nullptr)` returns `true` and leaves the context without title bar. -/
theorem setTitleBar_null_replaces :
    exampleCtx.m_titleBar = some 10 ∧ (setTitleBar exampleCtx none).1 = true ∧
      (setTitleBar exampleCtx none).2.m_titleBar = none :=
  ⟨rfl, rfl, rfl⟩

/-- C13: with the delegate and a window handle bound and the title bar registered, visible
and enabled, if the mapped geometry of the title bar does not intersect the window rectangle
(origin (0,0), size of the window handle) then `isInTitleBarDraggableArea(p)` is `false` for
every position `p`. -/
theorem titleBar_outside_window_not_draggable (B : SystemButton) (d : Toolkit) (s : Ctx)
    (p : QPoint) (w : Nat) (hd : s.m_delegate.isSome = true) (hw : s.m_windowHandle = some w)
    (ht : s.m_titleBar.isSome = true) (hv : d.isVisible s.m_titleBar = true)
    (he : d.isEnabled s.m_titleBar = true)
    (hi : (d.mapGeometryToScene s.m_titleBar).intersects
      (QRect.ofTopLeftSize { x := 0, y := 0 } (d.size w)) = false) :
    isInTitleBarDraggableArea B d s p = some false := by
  obtain ⟨a, ha⟩ := Option.isSome_iff_exists.mp hd
  have hnone : s.m_titleBar.isNone = false := by
    cases h : s.m_titleBar with
    | none => rw [h] at ht; simp at ht
    | some _ => rfl
  unfold isInTitleBarDraggableArea
  simp [hnone, ha, hw, hv, he, hi]

/-- Witness of C13: the title bar at (900,0)-(1000,32) lies outside the 800 x 600 window,
and (950,16), a position inside the title bar, is not draggable. -/
theorem titleBar_outside_window_not_draggable_witness :
    (exampleOffWindowToolkit.mapGeometryToScene (some 10)).contains { x := 950, y := 16 } = true ∧
      isInTitleBarDraggableArea exampleButtons exampleOffWindowToolkit exampleCtx
        { x := 950, y := 16 } = some false :=
  ⟨by decide,
   titleBar_outside_window_not_draggable exampleButtons exampleOffWindowToolkit exampleCtx
    { x := 950, y := 16 } 3 rfl rfl rfl rfl rfl (by decide)⟩

/-- C14: if no title bar is registered, `isInTitleBarDraggableArea(p)` is `false` for every
position `p`, whatever the registry, the hit-test-visible set, the toolkit answers, the
delegate and the window handle are. -/
theorem no_titleBar_not_draggable (B : SystemButton) (d : Toolkit) (s : Ctx) (p : QPoint)
    (ht : s.m_titleBar = none) : isInTitleBarDraggableArea B d s p = some false := by
  simp [isInTitleBarDraggableArea, ht]

/-- Witness of C14: a freshly constructed context has no title bar, no delegate and no window
handle. -/
theorem no_titleBar_not_draggable_witness :
    isInTitleBarDraggableArea exampleButtons exampleToolkit Ctx.init { x := 400, y := 16 } =
      some false :=
  no_titleBar_not_draggable exampleButtons exampleToolkit Ctx.init { x := 400, y := 16 } rfl

/-- The call `setEnabled` does not touch the host pointer. -/
theorem setEnabled_host (d : Toolkit) (s t : Ctx) (enabled : Bool) (effects : List Effect)
    (h : setEnabled d s enabled = some (t, effects)) : t.m_host = s.m_host := by
  unfold setEnabled at h
  by_cases hsame : enabled = s.m_internalEnabled
  · rw [if_pos hsame] at h
    simp only [Option.some.injEq, Prod.mk.injEq] at h
    obtain ⟨rfl, _⟩ := h
    rfl
  · rw [if_neg hsame] at h
    cases enabled with
    | true =>
      simp only [if_true] at h
      cases hdl : s.m_delegate with
      | none => simp [hdl] at h
      | some a =>
        simp only [hdl] at h
        split_ifs at h <;>
          (simp only [Option.some.injEq, Prod.mk.injEq] at h; obtain ⟨rfl, _⟩ := h; rfl)
    | false =>
      simp only [Bool.false_eq_true, if_false] at h
      split_ifs at h <;>
        (simp only [Option.some.injEq, Prod.mk.injEq] at h; obtain ⟨rfl, _⟩ := h; rfl)

/-- C15: `setup(host, delegate)` returns the context unchanged and makes no call whenever
the context is already set up, or the host argument is null, or the delegate argument is
null; in particular, after a `setup` that took effect every further `setup` is a no-op. -/
theorem setup_noop (d : Toolkit) (s : Ctx) (host : QObjectPtr) (delegate : DelegatePtr) :
    ((s.m_host.isSome = true ∨ host = none ∨ delegate = none) →
      setup d s host delegate = some (s, [])) ∧
    (s.m_host = none → host.isSome = true → delegate.isSome = true →
      ∀ t effects, setup d s host delegate = some (t, effects) →
        ∀ (d2 : Toolkit) (host2 : QObjectPtr) (delegate2 : DelegatePtr),
          setup d2 t host2 delegate2 = some (t, [])) := by
  constructor
  · intro h
    unfold setup
    rcases h with h | h | h
    · simp [h]
    · simp [h]
    · simp [h]
  · intro hs hh hdl t effects hrun d2 host2 delegate2
    have hguard : ¬ ((s.m_host.isSome || host.isNone || delegate.isNone) = true) := by
      obtain ⟨a, rfl⟩ := Option.isSome_iff_exists.mp hh
      obtain ⟨b, rfl⟩ := Option.isSome_iff_exists.mp hdl
      simp [hs]
    unfold setup at hrun
    rw [if_neg hguard] at hrun
    have hhost : t.m_host = host := setEnabled_host d _ t true effects hrun
    unfold setup
    simp [hhost, hh]

/-- Witness of C15: a second `setup`, with other arguments, on the set-up scenario context. -/
theorem setup_noop_witness :
    setup exampleToolkit exampleCtx (some 7) (some 8) = some (exampleCtx, []) :=
  (setup_noop exampleToolkit exampleCtx (some 7) (some 8)).1 (Or.inl rfl)

/-! ## Hook dispatch -/

/-- C16: for every caller-supplied mapping, empty or not, the `DefaultColors` hook leaves it
with exactly four entries, keyed activeDark, activeLight, inactiveDark and inactiveLight (the
key order of the map) and holding the built-in palette values; the prior contents do not
matter. -/
theorem defaultColors_palette (mk : Nat → Nat → Nat → Nat → Nat) (d : Toolkit) (s : Ctx)
    (m : List (String × Nat)) :
    virtual_hook mk d s .DefaultColorsHook (.colorMap m) =
      some (.colorMap [("activeDark", mk 177 205 190 240), ("activeLight", mk 210 233 189 226),
        ("inactiveDark", mk 240 240 250 255), ("inactiveLight", mk 193 195 211 203)], []) := by
  rfl

/-- Halving by truncating division leaves a remainder of at most one in absolute value. -/
theorem tdiv_two_gap (a : Int) : -1 ≤ a - 2 * Int.tdiv a 2 ∧ a - 2 * Int.tdiv a 2 ≤ 1 := by
  rcases Int.le_total 0 a with h | h
  · rw [Int.tdiv_eq_ediv h (by decide)]; omega
  · have h2 : Int.tdiv a 2 = -((-a) / 2) := by
      have h3 : Int.tdiv (-a) 2 = (-a) / 2 := Int.tdiv_eq_ediv (by omega) (by decide)
      rw [← h3, Int.neg_tdiv, Int.neg_neg]
    rw [h2]; omega

/-- A value in the 32-bit range is not changed by wrapping. -/
theorem wrapInt32_of_isInt32 (x : Int) (h : isInt32 x) : wrapInt32 x = x := by
  obtain ⟨h1, h2⟩ := h
  unfold wrapInt32
  omega

/-- Counterexample to C17 as stated: the screen is at (-2147483000, 0) with size 1920 x 1080
and the window has size 4000 x 600.  The stated position has x = -2147484040, which is not
an `int`; the hook adds -1040 to -2147483000 in 32-bit arithmetic and moves the window to
x = 2147483256, where the gaps before and after the window differ by far more than 1. -/
theorem centralize_overflow_counterexample :
    virtual_hook exampleRgba exampleFarLeftToolkit exampleCtx .CentralizeHook .null =
        some (.null, [Effect.setPosition 3 { x := 2147483256, y := 240 }]) ∧
      (centeredTopLeft (exampleFarLeftToolkit.screenGeometry 3)
        (exampleFarLeftToolkit.size 3)).x = -2147484040 ∧
      ¬ (leadingGap (-2147483000) 2147483256 -
          trailingGap (-2147483000) 1920 2147483256 4000 ≤ 1) := by
  decide

/-- C17 (amended): with a window handle bound, for every screen geometry and window size for
which no `int` operation of the hook overflows, the `Centralize` hook makes exactly one call,
`setPosition` of the window to the screen's top-left corner plus
((screenWidth - w) / 2, (screenHeight - h) / 2) with truncating division; on each axis the
gap before the window and the gap after it differ by at most 1, whether or not the window is
larger than the screen. -/
theorem centralize_centers_in_range (mk : Nat → Nat → Nat → Nat → Nat) (d : Toolkit)
    (s : Ctx) (data : HookData) (w : Nat) (hw : s.m_windowHandle = some w)
    (hfit : centralizeFits (d.screenGeometry w) (d.size w)) :
    virtual_hook mk d s .CentralizeHook data =
      some (data, [Effect.setPosition w (centeredTopLeft (d.screenGeometry w) (d.size w))]) ∧
    (-1 ≤ leadingGap (d.screenGeometry w).x1
          (centeredTopLeft (d.screenGeometry w) (d.size w)).x -
        trailingGap (d.screenGeometry w).x1
          ((d.screenGeometry w).x2 - (d.screenGeometry w).x1 + 1)
          (centeredTopLeft (d.screenGeometry w) (d.size w)).x (d.size w).width ∧
      leadingGap (d.screenGeometry w).x1
          (centeredTopLeft (d.screenGeometry w) (d.size w)).x -
        trailingGap (d.screenGeometry w).x1
          ((d.screenGeometry w).x2 - (d.screenGeometry w).x1 + 1)
          (centeredTopLeft (d.screenGeometry w) (d.size w)).x (d.size w).width ≤ 1) ∧
    (-1 ≤ leadingGap (d.screenGeometry w).y1
          (centeredTopLeft (d.screenGeometry w) (d.size w)).y -
        trailingGap (d.screenGeometry w).y1
          ((d.screenGeometry w).y2 - (d.screenGeometry w).y1 + 1)
          (centeredTopLeft (d.screenGeometry w) (d.size w)).y (d.size w).height ∧
      leadingGap (d.screenGeometry w).y1
          (centeredTopLeft (d.screenGeometry w) (d.size w)).y -
        trailingGap (d.screenGeometry w).y1
          ((d.screenGeometry w).y2 - (d.screenGeometry w).y1 + 1)
          (centeredTopLeft (d.screenGeometry w) (d.size w)).y (d.size w).height ≤ 1) := by
  obtain ⟨hx1, hx2, hx3, hx4, hy1, hy2, hy3, hy4⟩ := hfit
  refine ⟨?_, ?_, ?_⟩
  · simp only [virtual_hook, hw, centeredTopLeft, QRect.width, QRect.height, QRect.topLeft]
    rw [wrapInt32_of_isInt32 _ hx1, wrapInt32_of_isInt32 _ hx2, wrapInt32_of_isInt32 _ hx3,
      wrapInt32_of_isInt32 _ hx4, wrapInt32_of_isInt32 _ hy1, wrapInt32_of_isInt32 _ hy2,
      wrapInt32_of_isInt32 _ hy3, wrapInt32_of_isInt32 _ hy4]
    rw [Int.add_comm (Int.tdiv _ 2) (d.screenGeometry w).x1,
      Int.add_comm (Int.tdiv _ 2) (d.screenGeometry w).y1]
  · have h := tdiv_two_gap ((d.screenGeometry w).x2 - (d.screenGeometry w).x1 + 1 -
      (d.size w).width)
    simp only [leadingGap, trailingGap, centeredTopLeft]
    generalize Int.tdiv ((d.screenGeometry w).x2 - (d.screenGeometry w).x1 + 1 -
      (d.size w).width) 2 = q at h ⊢
    omega
  · have h := tdiv_two_gap ((d.screenGeometry w).y2 - (d.screenGeometry w).y1 + 1 -
      (d.size w).height)
    simp only [leadingGap, trailingGap, centeredTopLeft]
    generalize Int.tdiv ((d.screenGeometry w).y2 - (d.screenGeometry w).y1 + 1 -
      (d.size w).height) 2 = q at h ⊢
    omega

/-- Witness of C17 (amended) on the scenario: nothing overflows, and the 800 x 600 window on
the 1920 x 1080 screen is moved to (560,240). -/
theorem centralize_centers_in_range_witness :
    virtual_hook exampleRgba exampleToolkit exampleCtx .CentralizeHook .null =
      some (.null, [Effect.setPosition 3 { x := 560, y := 240 }]) :=
  (centralize_centers_in_range exampleRgba exampleToolkit exampleCtx .null 3 rfl
    (by decide)).1

/-- Masking with the complement of `Qt::WindowMinimized` clears bit 0 and keeps every other
bit of a 32-bit flag set. -/
theorem clear_minimized_bits (state : Nat) (hst : state < 2 ^ 32) :
    (state &&& (0xFFFFFFFF - WindowMinimized)).testBit 0 = false ∧
    ∀ i, i ≠ 0 → (state &&& (0xFFFFFFFF - WindowMinimized)).testBit i = state.testBit i := by
  constructor
  · rw [Nat.testBit_land]
    have : Nat.testBit (0xFFFFFFFF - WindowMinimized) 0 = false := by decide
    rw [this, Bool.and_false]
  · intro i hi
    rw [Nat.testBit_land]
    by_cases h32 : i < 32
    · have hm : Nat.testBit (0xFFFFFFFF - WindowMinimized) i = true := by
        have h1 : 1 ≤ i := Nat.pos_of_ne_zero hi
        interval_cases i <;> decide
      rw [hm, Bool.and_true]
    · have hlt : state < 2 ^ i :=
        Nat.lt_of_lt_of_le hst (Nat.pow_le_pow_right (by decide) (by omega))
      rw [Nat.testBit_lt_two_pow hlt, Bool.false_and]

/-- The test `state & Qt::WindowMinimized` of the source is the test of bit 0. -/
theorem minimized_test (state : Nat) : state &&& WindowMinimized ≠ 0 ↔ state.testBit 0 = true := by
  have h1 : state &&& WindowMinimized = state % 2 := Nat.and_one_is_mod state
  rw [h1, Nat.testBit_zero]
  simp only [decide_eq_true_eq]
  omega

/-- C18: with the delegate bound and the host's window state a 32-bit flag set: if the
minimized flag is set, the `RaiseWindow` hook calls `setWindowState` once, with the minimized
flag cleared and every other flag as it was, and then `bringWindowToTop` once; if the
minimized flag is not set, it makes the single call `bringWindowToTop`. -/
theorem raiseWindow_restores_then_raises (mk : Nat → Nat → Nat → Nat → Nat) (d : Toolkit)
    (s : Ctx) (data : HookData) (hd : s.m_delegate.isSome = true)
    (hst : d.getWindowState s.m_host < 2 ^ 32) :
    ((d.getWindowState s.m_host).testBit 0 = true →
      ∃ newState, virtual_hook mk d s .RaiseWindowHook data =
          some (data, [Effect.setWindowState s.m_host newState,
                       Effect.bringWindowToTop s.m_host]) ∧
        newState.testBit 0 = false ∧
        ∀ i, i ≠ 0 → newState.testBit i = (d.getWindowState s.m_host).testBit i) ∧
    ((d.getWindowState s.m_host).testBit 0 = false →
      virtual_hook mk d s .RaiseWindowHook data =
        some (data, [Effect.bringWindowToTop s.m_host])) := by
  obtain ⟨a, ha⟩ := Option.isSome_iff_exists.mp hd
  constructor
  · intro hmin
    have hc : d.getWindowState s.m_host &&& WindowMinimized ≠ 0 := (minimized_test _).mpr hmin
    refine ⟨d.getWindowState s.m_host &&& (0xFFFFFFFF - WindowMinimized), ?_,
      (clear_minimized_bits _ hst).1, (clear_minimized_bits _ hst).2⟩
    simp only [virtual_hook, ha]
    rw [if_pos hc]
  · intro hmin
    have hc : ¬ (d.getWindowState s.m_host &&& WindowMinimized ≠ 0) := by
      intro h
      rw [(minimized_test _).mp h] at hmin
      exact Bool.noConfusion hmin
    simp only [virtual_hook, ha]
    rw [if_neg hc]

/-- Witness of C18: the host window is minimized and maximized (flags 3); the hook sets the
state to maximized (flags 2) and raises the window. -/
theorem raiseWindow_restores_then_raises_witness :
    ∃ newState, virtual_hook exampleRgba exampleMinimizedToolkit exampleCtx .RaiseWindowHook
          .null =
        some (.null, [Effect.setWindowState (some 1) newState,
                      Effect.bringWindowToTop (some 1)]) ∧
      newState.testBit 0 = false ∧
      ∀ i, i ≠ 0 → newState.testBit i = (3 : Nat).testBit i :=
  (raiseWindow_restores_then_raises exampleRgba exampleMinimizedToolkit exampleCtx .null rfl
    (by decide)).1 (by decide)

/-! ## Reachable states without window handle -/

/-- The context that `setup` produces in the scenario is reachable. -/
theorem exampleFreshSetUpCtx_reachable :
    Reachable exampleButtons exampleRgba exampleFreshSetUpCtx :=
  Reachable.step exampleToolkit (Op.setup (some 1) (some 2)) Ctx.init exampleFreshSetUpCtx
    [Effect.winIdChanged none false] Reachable.init rfl

/-- The set-up, disabled context of the scenario is reachable: `setup`, then
`setEnabled(false)`. -/
theorem exampleDisabledCtx_reachable :
    Reachable exampleButtons exampleRgba exampleDisabledCtx :=
  Reachable.step exampleToolkit (Op.setEnabled false) exampleFreshSetUpCtx exampleDisabledCtx
    [Effect.winIdChanged (some 3) false] exampleFreshSetUpCtx_reachable rfl

/-- The set-up, disabled context with a title bar is reachable: `setup`, then
`setTitleBar(item 10)`, then `setEnabled(false)`. -/
theorem exampleDetachedCtx_reachable :
    Reachable exampleButtons exampleRgba exampleDetachedCtx :=
  Reachable.step exampleToolkit (Op.setEnabled false)
    { exampleFreshSetUpCtx with m_titleBar := some 10 } exampleDetachedCtx
    [Effect.winIdChanged (some 3) false]
    (Reachable.step exampleToolkit (Op.setTitleBar (some 10)) exampleFreshSetUpCtx
      { exampleFreshSetUpCtx with m_titleBar := some 10 } [] exampleFreshSetUpCtx_reachable rfl)
    rfl

/-- With the delegate bound, a registered, visible and enabled title bar and no window
handle, `isInTitleBarDraggableArea` reads the size of the null window handle. -/
theorem isInTitleBarDraggableArea_detached (B : SystemButton) (d : Toolkit) (s : Ctx)
    (p : QPoint) (hd : s.m_delegate.isSome = true) (hw : s.m_windowHandle = none)
    (ht : s.m_titleBar.isSome = true) (hv : d.isVisible s.m_titleBar = true)
    (he : d.isEnabled s.m_titleBar = true) :
    isInTitleBarDraggableArea B d s p = none := by
  obtain ⟨a, ha⟩ := Option.isSome_iff_exists.mp hd
  have hnone : s.m_titleBar.isNone = false := by
    cases h : s.m_titleBar with
    | none => rw [h] at ht; simp at ht
    | some _ => rfl
  unfold isInTitleBarDraggableArea
  simp [hnone, ha, hw, hv, he]

/-- C19 (the code at the failing input): the context reached by `setup(host 1, delegate 2)`,
`setTitleBar(item 10)` and `setEnabled(false)` is set up and Detached, its title bar is
visible and enabled, and `isInTitleBarDraggableArea((400,16))` has no result: it reads the
size of the null window handle. -/
theorem isInTitleBarDraggableArea_null_handle :
    Reachable exampleButtons exampleRgba exampleDetachedCtx ∧
      exampleDetachedCtx.m_host = some 1 ∧ exampleDetachedCtx.m_windowHandle = none ∧
      isInTitleBarDraggableArea exampleButtons exampleToolkit exampleDetachedCtx
        { x := 400, y := 16 } = none :=
  ⟨exampleDetachedCtx_reachable, rfl, rfl,
   isInTitleBarDraggableArea_detached exampleButtons exampleToolkit exampleDetachedCtx
    { x := 400, y := 16 } rfl rfl rfl rfl rfl⟩

/-- C20: in every state reachable from a freshly constructed context by calls of the public
operations, in particular by any sequence of `setup`, `setEnabled` and `notifyWinIdChange`
calls, whatever the delegate answers at each call, a disabled context holds no window
handle. -/
theorem disabled_holds_no_handle (B : SystemButton) (mk : Nat → Nat → Nat → Nat → Nat)
    (s : Ctx) (hs : Reachable B mk s) (hdis : s.m_internalEnabled = false) :
    s.m_windowHandle = none :=
  (reachable_inv B mk s hs).1 hdis

/-- Witness of C20: after `setup` bound window 3 and `setEnabled(false)` was called, the
disabled context holds no handle. -/
theorem disabled_holds_no_handle_witness : exampleDisabledCtx.m_windowHandle = none :=
  disabled_holds_no_handle exampleButtons exampleRgba exampleDisabledCtx
    exampleDisabledCtx_reachable rfl

end QWK
